import Mathlib

/-!
Verification of the generic tree-search extraction engine and the
fetch/deserialize/paginate pipeline of the Rettiwt-API repository.

The JavaScript/TypeScript source is shallowly embedded:

* `JSValue` models a JavaScript JSON value (numbers restricted to the
  integer-valued case, which is all the code under study manipulates);
* `findByFilter` embeds `helper/JsonUtils.findByFilter`, including the
  JavaScript quirks it inherits: loose equality `==` against the string
  target, and the fact that `typeof null === 'object'` makes the object
  branch call `Object.keys(null)`, which throws a `TypeError` (so the
  embedding is `Except`-valued);
* `extractData`, `deserializeData`, `checkAuthorization`, `fetch` and
  `post` of `FetcherService` are embedded as `extractData`,
  `deserializeData`, `checkAuthorization`, `fetchModel`, `postModel`,
  with the transport abstracted as a supplied response body plus a call
  counter;
* `TweetService.details` is embedded as `detailsModel`.
-/

/-- A JavaScript value as produced by parsing a JSON response body.
`undefined` is JavaScript `undefined` (never in a parsed body, but produced
by property accesses on objects lacking the property).  Numbers are
modelled by their integer value; the code under study never computes
with non-integer numerics.  Object fields are listed in the object's
(deterministic) iteration order. -/
inductive JSValue where
  | null
  | undefined
  | bool (b : Bool)
  | num (n : Int)
  | str (s : String)
  | arr (elems : List JSValue)
  | obj (fields : List (String × JSValue))

/-- JavaScript truthiness of a value. -/
def truthy : JSValue → Bool
  | .null => false
  | .undefined => false
  | .bool b => b
  | .num n => n != 0
  | .str s => s != ""
  | .arr _ => true
  | .obj _ => true

mutual

/-- JavaScript `String(x)`.  An array stringifies as its elements joined
by commas (`Array.prototype.toString`), an object as
`"[object Object]"`. -/
def jsToString : JSValue → String
  | .null => "null"
  | .undefined => "undefined"
  | .bool b => if b then "true" else "false"
  | .num n => toString n
  | .str s => s
  | .arr xs => jsToStringElems xs
  | .obj _ => "[object Object]"

/-- Elements of an array joined by commas, as in `Array.prototype.join`,
where `null` and `undefined` elements become the empty string. -/
def jsToStringElems : List JSValue → String
  | [] => ""
  | [.null] => ""
  | [.undefined] => ""
  | [x] => jsToString x
  | .null :: rest => "," ++ jsToStringElems rest
  | .undefined :: rest => "," ++ jsToStringElems rest
  | x :: rest => jsToString x ++ "," ++ jsToStringElems rest

end

/-- First binding of key `k` in an object's field list; `undefined` when
the key is absent (JavaScript `obj[k]`). -/
def lookupKey (kvs : List (String × JSValue)) (k : String) : JSValue :=
  match kvs.find? (fun p => p.1 == k) with
  | some p => p.2
  | none => .undefined

/-- Whether an object's own keys include `k`
(JavaScript `Object.keys(obj).includes(k)`). -/
def hasKey (kvs : List (String × JSValue)) (k : String) : Bool :=
  kvs.any (fun p => p.1 == k)

/-- The WhiteSpace and LineTerminator code points JavaScript `ToNumber`
trims from a string: ASCII whitespace, NBSP, BOM, the Unicode space
separators, and the line terminators. -/
def isJsWhitespace (c : Char) : Bool :=
  c == ' ' || c == '\t' || c == '\n' || c == '\r' || c == '\x0b' || c == '\x0c' ||
  c == '\u00a0' || c == '\u1680' || ('\u2000' ≤ c && c ≤ '\u200a') ||
  c == '\u2028' || c == '\u2029' || c == '\u202f' || c == '\u205f' ||
  c == '\u3000' || c == '\ufeff'

/-- Value of a list of decimal digit characters. -/
def digitsToNat (cs : List Char) : Nat :=
  cs.foldl (fun acc c => acc * 10 + (c.toNat - 48)) 0

/-- Whether a character is a hexadecimal digit. -/
def isHexDigit (c : Char) : Bool :=
  c.isDigit || ('a' ≤ c && c ≤ 'f') || ('A' ≤ c && c ≤ 'F')

/-- Value of a hexadecimal digit character. -/
def hexDigitVal (c : Char) : Nat :=
  if c.isDigit then c.toNat - 48
  else if 'a' ≤ c && c ≤ 'f' then c.toNat - 87
  else c.toNat - 55

/-- Value of a list of hexadecimal digit characters. -/
def hexToNat (cs : List Char) : Nat :=
  cs.foldl (fun acc c => acc * 16 + hexDigitVal c) 0

/-- Value of a list of binary digit characters. -/
def binToNat (cs : List Char) : Nat :=
  cs.foldl (fun acc c => acc * 2 + (c.toNat - 48)) 0

/-- Value of a list of octal digit characters. -/
def octToNat (cs : List Char) : Nat :=
  cs.foldl (fun acc c => acc * 8 + (c.toNat - 48)) 0

/-- Optionally signed decimal digits, as in the exponent part of a
JavaScript numeric string; `none` on empty digits or a non-digit. -/
def parseSignedDigits? : List Char → Option Int
  | '+' :: d =>
      if d ≠ [] ∧ d.all Char.isDigit then some (digitsToNat d : Int) else none
  | '-' :: d =>
      if d ≠ [] ∧ d.all Char.isDigit then some (-(digitsToNat d : Int)) else none
  | d =>
      if d ≠ [] ∧ d.all Char.isDigit then some (digitsToNat d : Int) else none

/-- The exponent part that may follow a decimal literal's digits:
nothing (exponent 0), or `e`/`E` with optionally signed digits; any
other trailing text makes the whole literal `NaN` (`none`). -/
def parseExponent? : List Char → Option Int
  | [] => some 0
  | 'e' :: r => parseSignedDigits? r
  | 'E' :: r => parseSignedDigits? r
  | _ => none

/-- The exact value of an unsigned JavaScript decimal numeric literal
`digits [. digits] [exponent]` (either digit group may be empty, not
both), when that value is an integer: `7`, `7.0`, `.5e1` and `7e0`
parse to 7; invalid syntax (`NaN`) and non-integer values such as
`7.5` yield `none` (they never compare equal to a modelled integer). -/
def parseDecimal? (cs : List Char) : Option Int :=
  let ip := cs.takeWhile Char.isDigit
  let rest1 := cs.dropWhile Char.isDigit
  let fp := match rest1 with
    | '.' :: r => r.takeWhile Char.isDigit
    | _ => []
  let rest2 := match rest1 with
    | '.' :: r => r.dropWhile Char.isDigit
    | _ => rest1
  if ip = [] ∧ fp = [] then none
  else
    match parseExponent? rest2 with
    | none => none
    | some e =>
        let mant : Nat := digitsToNat (ip ++ fp)
        let scale : Int := e - fp.length
        if 0 ≤ scale then some ((mant : Int) * (10 : Int) ^ scale.toNat)
        else
          let p : Nat := 10 ^ (-scale).toNat
          if mant % p = 0 then some ((mant / p : Nat) : Int) else none

/-- JavaScript `ToNumber` applied to a string, evaluated exactly:
surrounding whitespace is trimmed, the empty string is `0`, `0x`/`0b`/`0o`
prefixes introduce unsigned hexadecimal/binary/octal integers, and
otherwise an optional sign precedes a decimal literal with optional
fraction and exponent, so the integer-valued forms `"7"`, `"07"`,
`"7.0"`, `"7e0"`, `"0x7"` all yield 7.  `none` stands for any result
that is `NaN`, infinite, or not an integer — such results never compare
equal to a modelled number.  (The model evaluates the literal's exact
mathematical value rather than its binary64 rounding, in keeping with
the integer-valued restriction of `JSValue.num`.) -/
def strToNumber? (s : String) : Option Int :=
  let t := ((s.toList.dropWhile isJsWhitespace).reverse.dropWhile isJsWhitespace).reverse
  match t with
  | [] => some 0
  | '0' :: x :: r =>
      if x == 'x' || x == 'X' then
        if r ≠ [] ∧ r.all isHexDigit then some (hexToNat r : Int) else none
      else if x == 'b' || x == 'B' then
        if r ≠ [] ∧ r.all (fun c => c == '0' || c == '1') then some (binToNat r : Int) else none
      else if x == 'o' || x == 'O' then
        if r ≠ [] ∧ r.all (fun c => '0' ≤ c && c ≤ '7') then some (octToNat r : Int) else none
      else parseDecimal? t
  | '-' :: r => (parseDecimal? r).map (fun n => -n)
  | '+' :: r => parseDecimal? r
  | _ => parseDecimal? t

/-- JavaScript loose equality `x == s` where `s` is a string: strings
compare by string equality, numbers and booleans by numeric value after
`ToNumber` of the string, `null`/`undefined` are never equal to a
string, and arrays/objects are converted by `ToPrimitive` (which for
them is `String(x)`) and then compared as strings. -/
def jsEqStr : JSValue → String → Bool
  | .null, _ => false
  | .undefined, _ => false
  | .bool b, s => strToNumber? s == some (if b then (1 : Int) else 0)
  | .num n, s => strToNumber? s == some n
  | .str t, s => t == s
  | .arr xs, s => jsToString (.arr xs) == s
  | .obj kvs, s => jsToString (.obj kvs) == s

/-- The `TypeError` raised by `Object.keys(null)`: since
`typeof null === 'object'`, `findByFilter` reaches its object branch on
`null` and crashes there. -/
def typeErrorKeys : String :=
  "TypeError: Cannot convert undefined or null to object"

/-- The `TypeError` raised by reading a property of `null`/`undefined`. -/
def typeErrorRead : String :=
  "TypeError: Cannot read properties of null or undefined"

mutual

/-- Embedding of `helper/JsonUtils.findByFilter`: if the data is an
array, recursively search every element in order and concatenate; if
`typeof data == 'object'` (which is also true of `null`, making
`Object.keys(null)` throw), append the object itself when its own `k`
field compares `==` to `v`, then recurse into every field value in
order; other scalars contribute nothing. -/
def findByFilter (d : JSValue) (k v : String) : Except String (List JSValue) :=
  match d with
  | .arr xs => findInList xs k v
  | .null => .error typeErrorKeys
  | .obj kvs => do
      let rest ← findInEntries kvs k v
      pure ((if hasKey kvs k && jsEqStr (lookupKey kvs k) v then [JSValue.obj kvs] else []) ++ rest)
  | _ => .ok []

/-- The array branch of `findByFilter`: `data.map(item => findByFilter(item, k, v))`
flattened, with the first thrown `TypeError` propagating. -/
def findInList (xs : List JSValue) (k v : String) : Except String (List JSValue) :=
  match xs with
  | [] => .ok []
  | x :: rest => do
      let r1 ← findByFilter x k v
      let r2 ← findInList rest k v
      pure (r1 ++ r2)

/-- The object recursion of `findByFilter`:
`for (const [, v] of Object.entries(data))` in field order. -/
def findInEntries (kvs : List (String × JSValue)) (k v : String) : Except String (List JSValue) :=
  match kvs with
  | [] => .ok []
  | (_, x) :: rest => do
      let r1 ← findByFilter x k v
      let r2 ← findInEntries rest k v
      pure (r1 ++ r2)

end

mutual

/-- All nodes of a JSON tree in document traversal order: each node
precedes the nodes of its descendants, array elements and object field
values are visited in document order. -/
def preorder : JSValue → List JSValue
  | .arr xs => .arr xs :: preorderList xs
  | .obj kvs => .obj kvs :: preorderEntries kvs
  | d => [d]

/-- Traversal of a list of sibling array elements. -/
def preorderList : List JSValue → List JSValue
  | [] => []
  | x :: rest => preorder x ++ preorderList rest

/-- Traversal of the values of an object's fields. -/
def preorderEntries : List (String × JSValue) → List JSValue
  | [] => []
  | (_, x) :: rest => preorder x ++ preorderEntries rest

end

mutual

/-- Whether a JSON tree contains no `null` anywhere. -/
def nullFree : JSValue → Bool
  | .null => false
  | .arr xs => nullFreeList xs
  | .obj kvs => nullFreeEntries kvs
  | _ => true

/-- `nullFree` over sibling array elements. -/
def nullFreeList : List JSValue → Bool
  | [] => true
  | x :: rest => nullFree x && nullFreeList rest

/-- `nullFree` over object field values. -/
def nullFreeEntries : List (String × JSValue) → Bool
  | [] => true
  | (_, x) :: rest => nullFree x && nullFreeEntries rest

end

/-- The self-match test of `findByFilter` on a node: the node is an
object whose own keys include `k` and whose `k` field compares `==` to
`v`. -/
def isMatch (k v : String) : JSValue → Bool
  | .obj kvs => hasKey kvs k && jsEqStr (lookupKey kvs k) v
  | _ => false

/-- The predicate of the specification's own wording: the node is a
mapping whose own `k`-valued field *stringifies* equal to `v`.  Written
from the spec, to be compared against the source's `isMatch`. -/
def specMatchStringify (k v : String) : JSValue → Bool
  | .obj kvs => hasKey kvs k && (jsToString (lookupKey kvs k) == v)
  | _ => false

/-- The search the specification describes, written from the spec's
words: every mapping node reachable from the tree (via sequence
elements and mapping values, recursively) whose own `k`-valued field
stringifies equal to `v`, in document traversal order. -/
def searchSpecStringify (d : JSValue) (k v : String) : List JSValue :=
  (preorder d).filter (specMatchStringify k v)

/-- The members of `rettiwt-core`'s `EResourceType` enumeration that the
source files reference. -/
inductive EResourceType where
  | TWEET_DETAILS
  | USER_DETAILS
  | USER_DETAILS_BY_ID
  | TWEET_SEARCH
  | USER_LIKES
  | LIST_TWEETS
  | USER_TWEETS
  | USER_TWEETS_AND_REPLIES
  | TWEET_FAVORITERS
  | TWEET_RETWEETERS
  | USER_FOLLOWERS
  | USER_FOLLOWING
  | CREATE_TWEET
  | FAVORITE_TWEET
  | CREATE_RETWEET
deriving DecidableEq

/-- The `EApiErrors.RESOURCE_NOT_ALLOWED` error thrown by
`checkAuthorization`. -/
def apiErrResourceNotAllowed : String := "RESOURCE_NOT_ALLOWED"

/-- Embedding of `FetcherService.checkAuthorization`: throws unless the
requested resource type is `TWEET_DETAILS`, `USER_DETAILS` or
`USER_TWEETS`, or the instance is authenticated. -/
def checkAuthorization (resourceType : EResourceType) (isAuthenticated : Bool) :
    Except String Unit :=
  if resourceType ≠ .TWEET_DETAILS ∧ resourceType ≠ .USER_DETAILS ∧
      resourceType ≠ .USER_TWEETS ∧ isAuthenticated = false then
    .error apiErrResourceNotAllowed
  else
    .ok ()

/-- The resource kinds `extractData` treats as single-entity lookups
(its two leading branches, which extract the entity directly with no
container projection). -/
def singleEntityKind : EResourceType → Bool
  | .TWEET_DETAILS => true
  | .USER_DETAILS => true
  | .USER_DETAILS_BY_ID => true
  | _ => false

/-- The resource kinds `checkAuthorization` lets a guest access. -/
def guestAllowedKind : EResourceType → Bool
  | .TWEET_DETAILS => true
  | .USER_DETAILS => true
  | .USER_TWEETS => true
  | _ => false

/-- Total property read used where the source cannot throw: `obj[k]`
on an object, `undefined` on anything else (scalars have none of the
properties the source reads; `?.` reads on `null`/`undefined` yield
`undefined`). -/
def jsGet : JSValue → String → JSValue
  | .obj kvs, k => lookupKey kvs k
  | _, _ => .undefined

/-- Plain JavaScript property read `x.k`: throws a `TypeError` on
`null` and `undefined`, returns `undefined` for a property a
non-object does not have. -/
def getProp : JSValue → String → Except String JSValue
  | .null, _ => .error typeErrorRead
  | .undefined, _ => .error typeErrorRead
  | .obj kvs, k => .ok (lookupKey kvs k)
  | _, _ => .ok .undefined

/-- The container projection of `extractData`'s timeline branches:
`item => item.tweet_results.result` (respectively `user_results`).  The
second read throws when the wrapper field is missing (`undefined`) or
`null`. -/
def proj (wrapper : String) (item : JSValue) : Except String JSValue := do
  let w ← getProp item wrapper
  getProp w "result"

/-- The mapping of the container projection over a matched fragment
list (JavaScript `matches.map(item => item.wrapper.result)`), with the
first thrown `TypeError` propagating. -/
def projAll (wrapper : String) : List JSValue → Except String (List JSValue)
  | [] => .ok []
  | x :: rest => do
      let y ← proj wrapper x
      let ys ← projAll wrapper rest
      pure (y :: ys)

/-- The `required` variable of `FetcherService.extractData`: the if-else
chain over the resource type.  Types matched by no branch leave
`required` as the empty list. -/
def extractRequired (data : JSValue) (type : EResourceType) :
    Except String (List JSValue) :=
  match type with
  | .TWEET_DETAILS =>
      findByFilter data "__typename" "Tweet"
  | .USER_DETAILS | .USER_DETAILS_BY_ID =>
      findByFilter data "__typename" "User"
  | .TWEET_SEARCH | .USER_LIKES | .LIST_TWEETS | .USER_TWEETS | .USER_TWEETS_AND_REPLIES => do
      let tl ← findByFilter data "__typename" "TimelineTweet"
      projAll "tweet_results" tl
  | .TWEET_FAVORITERS | .TWEET_RETWEETERS | .USER_FOLLOWERS | .USER_FOLLOWING => do
      let tl ← findByFilter data "__typename" "TimelineUser"
      projAll "user_results" tl
  | _ => pure []

/-- The cursor expression of `extractData`'s return statement:
`findByFilter(data, 'cursorType', 'Bottom')[0]?.value` applied to the
already-computed match list — `undefined` when there is no match,
otherwise the first match's `value` field. -/
def optValue : List JSValue → JSValue
  | [] => .undefined
  | c :: _ => jsGet c "value"

/-- Embedding of `FetcherService.extractData`: computes `required` by
the resource-type if-else chain, then extracts the pagination cursor by
searching the same body for the first fragment whose `cursorType` field
is `"Bottom"`; the cursor search is performed for every resource type. -/
def extractData (data : JSValue) (type : EResourceType) :
    Except String (List JSValue × JSValue) := do
  let required ← extractRequired data type
  let cursors ← findByFilter data "cursorType" "Bottom"
  pure (required, optValue cursors)

/-- A deserialized domain entity, carrying its raw fragment.  The field
mappings of the repository's `Tweet` and `User` model classes are not
under `src/`; modelled from the spec: a domain entity is one of the two
closed variants Post or Account and carries its raw fragment's data. -/
inductive Entity where
  | post (raw : JSValue)
  | account (raw : JSValue)

/-- Modelled from the spec: the stable identifier a domain entity
carries, which the source reads from the fragment's `rest_id` field
(`deserializeData` logs `id: item.rest_id`). -/
def entityId : Entity → JSValue
  | .post raw => jsGet raw "rest_id"
  | .account raw => jsGet raw "rest_id"

/-- The validity test of `deserializeData`'s tweet branch:
`item && item.__typename == 'Tweet' && item.rest_id`. -/
def isValidTweet (item : JSValue) : Bool :=
  truthy item && jsEqStr (jsGet item "__typename") "Tweet" && truthy (jsGet item "rest_id")

/-- The validity test of `deserializeData`'s user branch:
`item && item.__typename == 'User' && item.rest_id && item.id`. -/
def isValidUser (item : JSValue) : Bool :=
  truthy item && jsEqStr (jsGet item "__typename") "User" &&
    truthy (jsGet item "rest_id") && truthy (jsGet item "id")

/-- The entity (if any) a single fragment deserializes to, following the
if / else-if order of the loop body of `deserializeData`. -/
def entityOf (item : JSValue) : Option Entity :=
  if isValidTweet item then some (.post item)
  else if isValidUser item then some (.account item)
  else none

/-- The deserialization loop of `deserializeData`: each valid raw tweet
or raw user is pushed onto the output list, every other fragment is
skipped. -/
def deserializeList : List JSValue → List Entity
  | [] => []
  | item :: rest =>
      if isValidTweet item then .post item :: deserializeList rest
      else if isValidUser item then .account item :: deserializeList rest
      else deserializeList rest

/-- Modelled from the spec: the `CursoredData` result object, pairing
the ordered entity list with the next-page cursor value. -/
structure CursoredData where
  list : List Entity
  next : JSValue

/-- Embedding of `FetcherService.deserializeData`.  The parameter
default `next: string = ''` applies exactly when the passed cursor is
`undefined` (as when `extractData` found no cursor fragment). -/
def deserializeData (extractedData : List JSValue) (next : JSValue) : CursoredData :=
  let nextD := match next with
    | .undefined => JSValue.str ""
    | x => x
  ⟨deserializeList extractedData, nextD⟩

/-- Embedding of `FetcherService.request` with the transport abstracted:
the authorization check runs first; only if it passes is the transport
invoked (call count 1) and the supplied response body returned. -/
def requestModel (isAuthenticated : Bool) (resourceType : EResourceType)
    (body : JSValue) : Except String JSValue × Nat :=
  match checkAuthorization resourceType isAuthenticated with
  | .error e => (.error e, 0)
  | .ok _ => (.ok body, 1)

/-- Embedding of `FetcherService.fetch`: request, then extract, then
deserialize into a `CursoredData`; paired with the number of transport
calls made. -/
def fetchModel (isAuthenticated : Bool) (resourceType : EResourceType)
    (body : JSValue) : Except String CursoredData × Nat :=
  match requestModel isAuthenticated resourceType body with
  | (.error e, n) => (.error e, n)
  | (.ok b, n) =>
      match extractData b resourceType with
      | .error e => (.error e, n)
      | .ok (required, next) => (.ok (deserializeData required next), n)

/-- Embedding of `FetcherService.post`: request only, reporting success;
paired with the number of transport calls made. -/
def postModel (isAuthenticated : Bool) (resourceType : EResourceType)
    (body : JSValue) : Except String Bool × Nat :=
  match requestModel isAuthenticated resourceType body with
  | (.error e, n) => (.error e, n)
  | (.ok _, n) => (.ok true, n)

/-- Embedding of `TweetService.details`: fetch with `TWEET_DETAILS` and
return `data.list[0]`, which is `undefined` (`none`) when the list is
empty. -/
def detailsModel (isAuthenticated : Bool) (body : JSValue) :
    Except String (Option Entity) × Nat :=
  match fetchModel isAuthenticated .TWEET_DETAILS body with
  | (.error e, n) => (.error e, n)
  | (.ok cd, n) => (.ok cd.list.head?, n)

/-- Whether a fragment's wrapper field can be read through without a
`TypeError`: its `wrapper` property is neither `null` nor absent. -/
def readableWrapper (wrapper : String) (m : JSValue) : Bool :=
  match jsGet m wrapper with
  | .null => false
  | .undefined => false
  | _ => true

/-- Whether every container fragment matched by `extractData`'s timeline
branches carries a readable wrapper object (`tweet_results` resp.
`user_results` neither `null` nor absent); trivially true for the
non-timeline kinds. -/
def wrappersOk (data : JSValue) (type : EResourceType) : Bool :=
  match type with
  | .TWEET_SEARCH | .USER_LIKES | .LIST_TWEETS | .USER_TWEETS | .USER_TWEETS_AND_REPLIES =>
      ((preorder data).filter (isMatch "__typename" "TimelineTweet")).all
        (readableWrapper "tweet_results")
  | .TWEET_FAVORITERS | .TWEET_RETWEETERS | .USER_FOLLOWERS | .USER_FOLLOWING =>
      ((preorder data).filter (isMatch "__typename" "TimelineUser")).all
        (readableWrapper "user_results")
  | _ => true

/-- The first end-to-end scenario's inner Tweet fragment:
`{"__typename":"Tweet","rest_id":"123","text":"hi"}`. -/
def tweetA : JSValue :=
  .obj [("__typename", .str "Tweet"), ("rest_id", .str "123"), ("text", .str "hi")]

/-- The first end-to-end scenario's response body:
`{"data":{"tweet":{"result":{"__typename":"Tweet","rest_id":"123","text":"hi"}}}}`. -/
def scenarioA : JSValue :=
  .obj [("data", .obj [("tweet", .obj [("result", tweetA)])])]

/-- First inner Tweet of the second end-to-end scenario. -/
def tweetB1 : JSValue := .obj [("__typename", .str "Tweet"), ("rest_id", .str "1")]

/-- Second inner Tweet of the second end-to-end scenario. -/
def tweetB2 : JSValue := .obj [("__typename", .str "Tweet"), ("rest_id", .str "2")]

/-- A `TimelineTweet` container fragment wrapping `tweetB1` under
`tweet_results.result`. -/
def timelineTweetB1 : JSValue :=
  .obj [("__typename", .str "TimelineTweet"), ("tweet_results", .obj [("result", tweetB1)])]

/-- A `TimelineTweet` container fragment wrapping `tweetB2` under
`tweet_results.result`. -/
def timelineTweetB2 : JSValue :=
  .obj [("__typename", .str "TimelineTweet"), ("tweet_results", .obj [("result", tweetB2)])]

/-- The second scenario's cursor fragment
`{"cursorType":"Bottom","value":"abc|"}`. -/
def cursorB : JSValue := .obj [("cursorType", .str "Bottom"), ("value", .str "abc|")]

/-- The second end-to-end scenario's response body: two `TimelineTweet`
container fragments followed by one bottom-cursor fragment. -/
def scenarioB : JSValue :=
  .obj [("data", .arr [timelineTweetB1, timelineTweetB2, cursorB])]

/-- A cursor fragment `{"cursorType":"Bottom","value":"xyz"}`. -/
def cursorX : JSValue := .obj [("cursorType", .str "Bottom"), ("value", .str "xyz")]

/-- A single-post-lookup response body that also contains a bottom
cursor fragment. -/
def bodyC9 : JSValue :=
  .obj [("data", .obj [("tweet", .obj [("result", tweetA)]), ("cur", cursorX)])]

/-- A `TimelineTweet` container fragment with no `tweet_results`
wrapper at all. -/
def brokenTimelineTweet : JSValue := .obj [("__typename", .str "TimelineTweet")]

/-- A timeline response body whose only container fragment lacks its
wrapper object. -/
def bodyC5 : JSValue := .obj [("a", brokenTimelineTweet)]

/-- A `TimelineTweet` container fragment whose wrapper object is present
but empty, so its projected inner entity is `undefined`. -/
def emptyWrapperTimelineTweet : JSValue :=
  .obj [("__typename", .str "TimelineTweet"), ("tweet_results", .obj [])]

/-- A timeline body pairing a malformed-but-readable container with a
well-formed one. -/
def bodyC5W : JSValue := .arr [emptyWrapperTimelineTweet, timelineTweetB1]

/-- Fields of a `User`-tagged fragment that carries both identifier
fields, but whose numeric account id is `0` (falsy). -/
def userFragFields : List (String × JSValue) :=
  [("__typename", .str "User"), ("rest_id", .str "x"), ("id", .num 0)]

/-- A `User`-tagged fragment that carries both identifier fields, but
whose numeric account id is `0` (falsy). -/
def userFragIdZero : JSValue := .obj userFragFields

/-- A body containing a single bottom-cursor fragment with value `"w1"`. -/
def bodyC2W : JSValue := .arr [.obj [("cursorType", .str "Bottom"), ("value", .str "w1")]]

/-- The resource kinds handled by `extractData`'s `TimelineTweet`
branch (the tweet timelines). -/
def timelineTweetKind : EResourceType → Bool
  | .TWEET_SEARCH => true
  | .USER_LIKES => true
  | .LIST_TWEETS => true
  | .USER_TWEETS => true
  | .USER_TWEETS_AND_REPLIES => true
  | _ => false

/-- The resource kinds handled by `extractData`'s `TimelineUser`
branch (the user connection lists). -/
def timelineUserKind : EResourceType → Bool
  | .TWEET_FAVORITERS => true
  | .TWEET_RETWEETERS => true
  | .USER_FOLLOWERS => true
  | .USER_FOLLOWING => true
  | _ => false

/-- A well-formed inner `User` fragment. -/
def userU1 : JSValue :=
  .obj [("__typename", .str "User"), ("rest_id", .str "u1"), ("id", .num 5)]

/-- A `TimelineUser` container fragment wrapping `userU1` under
`user_results.result`. -/
def timelineUserU1 : JSValue :=
  .obj [("__typename", .str "TimelineUser"), ("user_results", .obj [("result", userU1)])]

/-- A connection-list response body with one `TimelineUser` container. -/
def bodyC8U : JSValue := .arr [timelineUserU1]

/-- A `User` fragment used in the single-account-lookup bodies. -/
def userFragC9 : JSValue :=
  .obj [("__typename", .str "User"), ("rest_id", .str "9"), ("id", .num 9)]

/-- A cursor fragment `{"cursorType":"Bottom","value":"uvw"}`. -/
def cursorU : JSValue := .obj [("cursorType", .str "Bottom"), ("value", .str "uvw")]

/-- A single-account-lookup response body that also contains a bottom
cursor fragment. -/
def bodyC9U : JSValue :=
  .obj [("data", .obj [("u", userFragC9), ("cur", cursorU)])]

theorem filter_singleton_append (c : Bool) (x : JSValue) (r : List JSValue) :
    (if c then [x] else []) ++ r = if c then x :: r else r := by
  cases c <;> simp

mutual

theorem findByFilter_eq_filter (d : JSValue) (k v : String) (h : nullFree d = true) :
    findByFilter d k v = .ok ((preorder d).filter (isMatch k v)) := by
  cases d with
  | null => simp [nullFree] at h
  | undefined => simp [findByFilter, preorder, isMatch]
  | bool b => simp [findByFilter, preorder, isMatch]
  | num n => simp [findByFilter, preorder, isMatch]
  | str s => simp [findByFilter, preorder, isMatch]
  | arr xs =>
      have h2 : nullFreeList xs = true := by simpa [nullFree] using h
      rw [findByFilter, findInList_eq_filter xs k v h2]
      simp [preorder, List.filter_cons, isMatch]
  | obj kvs =>
      have h2 : nullFreeEntries kvs = true := by simpa [nullFree] using h
      rw [findByFilter, findInEntries_eq_filter kvs k v h2]
      simp only [preorder, List.filter_cons, isMatch, bind, pure, Except.bind, Except.pure]
      rcases Bool.eq_false_or_eq_true (hasKey kvs k && jsEqStr (lookupKey kvs k) v) with hc | hc <;>
        simp [hc]

theorem findInList_eq_filter (xs : List JSValue) (k v : String) (h : nullFreeList xs = true) :
    findInList xs k v = .ok ((preorderList xs).filter (isMatch k v)) := by
  cases xs with
  | nil => simp [findInList, preorderList]
  | cons x rest =>
      have h1 : nullFree x = true := by
        have := h; simp [nullFreeList, Bool.and_eq_true] at this; exact this.1
      have h2 : nullFreeList rest = true := by
        have := h; simp [nullFreeList, Bool.and_eq_true] at this; exact this.2
      rw [findInList, findByFilter_eq_filter x k v h1, findInList_eq_filter rest k v h2]
      simp [preorderList, List.filter_append, bind, pure, Except.bind, Except.pure]

theorem findInEntries_eq_filter (kvs : List (String × JSValue)) (k v : String)
    (h : nullFreeEntries kvs = true) :
    findInEntries kvs k v = .ok ((preorderEntries kvs).filter (isMatch k v)) := by
  cases kvs with
  | nil => simp [findInEntries, preorderEntries]
  | cons p rest =>
      have h1 : nullFree p.2 = true := by
        have := h; cases p; simp [nullFreeEntries, Bool.and_eq_true] at this; exact this.1
      have h2 : nullFreeEntries rest = true := by
        have := h; cases p; simp [nullFreeEntries, Bool.and_eq_true] at this; exact this.2
      cases p with
      | mk key x =>
        rw [findInEntries, findByFilter_eq_filter x k v h1, findInEntries_eq_filter rest k v h2]
        simp [preorderEntries, List.filter_append, bind, pure, Except.bind, Except.pure]

end

theorem entityOf_none_iff (item : JSValue) :
    entityOf item = none ↔ isValidTweet item = false ∧ isValidUser item = false := by
  unfold entityOf
  rcases Bool.eq_false_or_eq_true (isValidTweet item) with ht | ht <;>
    rcases Bool.eq_false_or_eq_true (isValidUser item) with hu | hu <;>
    simp [ht, hu]

theorem deserializeList_eq_filterMap (l : List JSValue) :
    deserializeList l = l.filterMap entityOf := by
  induction l with
  | nil => simp [deserializeList]
  | cons item rest ih =>
      rcases Bool.eq_false_or_eq_true (isValidTweet item) with ht | ht <;>
        rcases Bool.eq_false_or_eq_true (isValidUser item) with hu | hu <;>
        simp [deserializeList, entityOf, ht, hu, ih, List.filterMap_cons]

theorem deserializeList_length (l : List JSValue) :
    (deserializeList l).length + l.countP (fun i => (entityOf i).isNone) = l.length := by
  induction l with
  | nil => simp [deserializeList]
  | cons item rest ih =>
      rcases Bool.eq_false_or_eq_true (isValidTweet item) with ht | ht
      · have he : entityOf item = some (.post item) := by simp [entityOf, ht]
        simp [deserializeList, ht, List.countP_cons, he]
        omega
      · rcases Bool.eq_false_or_eq_true (isValidUser item) with hu | hu
        · have he : entityOf item = some (.account item) := by simp [entityOf, ht, hu]
          simp [deserializeList, ht, hu, List.countP_cons, he]
          omega
        · have he : entityOf item = none := by simp [entityOf, ht, hu]
          simp [deserializeList, ht, hu, List.countP_cons, he]
          omega

theorem isMatch_obj (k v : String) (m : JSValue) (h : isMatch k v m = true) :
    ∃ kvs, m = .obj kvs := by
  cases m
  case obj kvs => exact ⟨kvs, rfl⟩
  all_goals simp [isMatch] at h

theorem proj_ok (w : String) (kvs : List (String × JSValue))
    (hw : readableWrapper w (.obj kvs) = true) :
    ∃ y, proj w (.obj kvs) = .ok y := by
  have hj : jsGet (.obj kvs) w = lookupKey kvs w := rfl
  unfold readableWrapper at hw
  rw [hj] at hw
  cases h : lookupKey kvs w with
  | null => rw [h] at hw; simp at hw
  | undefined => rw [h] at hw; simp at hw
  | bool b => exact ⟨.undefined, by simp [proj, getProp, h, bind, Except.bind]⟩
  | num n => exact ⟨.undefined, by simp [proj, getProp, h, bind, Except.bind]⟩
  | str s => exact ⟨.undefined, by simp [proj, getProp, h, bind, Except.bind]⟩
  | arr xs => exact ⟨.undefined, by simp [proj, getProp, h, bind, Except.bind]⟩
  | obj kvs2 => exact ⟨lookupKey kvs2 "result", by simp [proj, getProp, h, bind, Except.bind]⟩

theorem projAll_ok (w : String) (l : List JSValue)
    (h : ∀ x ∈ l, ∃ y, proj w x = .ok y) :
    ∃ ys, projAll w l = .ok ys := by
  induction l with
  | nil => exact ⟨[], rfl⟩
  | cons x rest ih =>
      obtain ⟨y, hy⟩ := h x (List.mem_cons_self x rest)
      obtain ⟨ys, hys⟩ := ih (fun z hz => h z (List.mem_cons_of_mem x hz))
      exact ⟨y :: ys, by simp [projAll, hy, hys, bind, Except.bind, pure, Except.pure]⟩

theorem findTimeline_projAll_ok (body : JSValue) (tag wrap : String)
    (h : nullFree body = true)
    (hw : ((preorder body).filter (isMatch "__typename" tag)).all (readableWrapper wrap) = true) :
    ∃ ys, (do
      let tl ← findByFilter body "__typename" tag
      projAll wrap tl : Except String (List JSValue)) = .ok ys := by
  have hall : ∀ x ∈ (preorder body).filter (isMatch "__typename" tag),
      ∃ y, proj wrap x = .ok y := by
    intro x hx
    obtain ⟨kvs, rfl⟩ := isMatch_obj "__typename" tag x (List.of_mem_filter hx)
    exact proj_ok wrap kvs (List.all_eq_true.mp hw _ hx)
  obtain ⟨ys, hys⟩ := projAll_ok wrap _ hall
  refine ⟨ys, ?_⟩
  rw [findByFilter_eq_filter body "__typename" tag h]
  simp [bind, Except.bind, hys]

theorem extractRequired_ok (body : JSValue) (t : EResourceType)
    (h : nullFree body = true) (hw : wrappersOk body t = true) :
    ∃ rs, extractRequired body t = .ok rs := by
  cases t
  case TWEET_DETAILS => exact ⟨_, findByFilter_eq_filter body "__typename" "Tweet" h⟩
  case USER_DETAILS => exact ⟨_, findByFilter_eq_filter body "__typename" "User" h⟩
  case USER_DETAILS_BY_ID => exact ⟨_, findByFilter_eq_filter body "__typename" "User" h⟩
  case TWEET_SEARCH =>
      simp only [wrappersOk] at hw
      exact findTimeline_projAll_ok body "TimelineTweet" "tweet_results" h hw
  case USER_LIKES =>
      simp only [wrappersOk] at hw
      exact findTimeline_projAll_ok body "TimelineTweet" "tweet_results" h hw
  case LIST_TWEETS =>
      simp only [wrappersOk] at hw
      exact findTimeline_projAll_ok body "TimelineTweet" "tweet_results" h hw
  case USER_TWEETS =>
      simp only [wrappersOk] at hw
      exact findTimeline_projAll_ok body "TimelineTweet" "tweet_results" h hw
  case USER_TWEETS_AND_REPLIES =>
      simp only [wrappersOk] at hw
      exact findTimeline_projAll_ok body "TimelineTweet" "tweet_results" h hw
  case TWEET_FAVORITERS =>
      simp only [wrappersOk] at hw
      exact findTimeline_projAll_ok body "TimelineUser" "user_results" h hw
  case TWEET_RETWEETERS =>
      simp only [wrappersOk] at hw
      exact findTimeline_projAll_ok body "TimelineUser" "user_results" h hw
  case USER_FOLLOWERS =>
      simp only [wrappersOk] at hw
      exact findTimeline_projAll_ok body "TimelineUser" "user_results" h hw
  case USER_FOLLOWING =>
      simp only [wrappersOk] at hw
      exact findTimeline_projAll_ok body "TimelineUser" "user_results" h hw
  case CREATE_TWEET => exact ⟨[], rfl⟩
  case FAVORITE_TWEET => exact ⟨[], rfl⟩
  case CREATE_RETWEET => exact ⟨[], rfl⟩

theorem extractData_ok (body : JSValue) (t : EResourceType)
    (h : nullFree body = true) (hw : wrappersOk body t = true) :
    ∃ p, extractData body t = .ok p := by
  obtain ⟨rs, hrs⟩ := extractRequired_ok body t h hw
  have hcur := findByFilter_eq_filter body "cursorType" "Bottom" h
  refine ⟨(rs, optValue ((preorder body).filter (isMatch "cursorType" "Bottom"))), ?_⟩
  rw [extractData, hrs, hcur]
  simp [bind, Except.bind, pure, Except.pure]

theorem extractData_parts (body : JSValue) (t : EResourceType) (req : List JSValue)
    (nx : JSValue) (hnf : nullFree body = true) (h : extractData body t = .ok (req, nx)) :
    extractRequired body t = .ok req ∧
      nx = optValue ((preorder body).filter (isMatch "cursorType" "Bottom")) := by
  have hcur := findByFilter_eq_filter body "cursorType" "Bottom" hnf
  cases hreq : extractRequired body t with
  | error e =>
      rw [extractData, hreq] at h
      simp [bind, Except.bind] at h
  | ok rs =>
      rw [extractData, hreq, hcur] at h
      simp [bind, Except.bind, pure, Except.pure] at h
      exact ⟨by rw [h.1], h.2.symm⟩

theorem fetchModel_ok_eq (isAuth : Bool) (t : EResourceType) (body : JSValue)
    (req : List JSValue) (nx : JSValue)
    (hauth : checkAuthorization t isAuth = .ok ())
    (hx : extractData body t = .ok (req, nx)) :
    fetchModel isAuth t body = (.ok (deserializeData req nx), 1) := by
  simp [fetchModel, requestModel, hauth, hx]

theorem fetchModel_count (isAuth : Bool) (t : EResourceType) (body : JSValue)
    (h : checkAuthorization t isAuth = .ok ()) :
    (fetchModel isAuth t body).2 = 1 := by
  cases hx : extractData body t with
  | error e => simp [fetchModel, requestModel, h, hx]
  | ok p => cases p with | mk a b => simp [fetchModel, requestModel, h, hx]

/-- C1 (amended): for every null-free JSON tree and every predicate,
`findByFilter` returns exactly the mapping nodes reachable from the tree
(through sequence elements and mapping values, recursively) whose own
field at the key compares JavaScript-loosely equal to the target, in
document traversal order, a matching mapping appearing before any
matches found in its descendants, matches nested inside other matches
included. -/
theorem c1_search_returns_matches_in_traversal_order (d : JSValue) (k v : String)
    (h : nullFree d = true) :
    findByFilter d k v = .ok ((preorder d).filter (isMatch k v)) :=
  findByFilter_eq_filter d k v h

/-- C1 witness: on a concrete tree with a match nested inside a match,
the search succeeds and the matching parent precedes its matching
descendant. -/
theorem c1_witness :
    nullFree (.obj [("k", .str "v"), ("c", .obj [("k", .str "v")])]) = true ∧
    findByFilter (.obj [("k", .str "v"), ("c", .obj [("k", .str "v")])]) "k" "v" =
      .ok [.obj [("k", .str "v"), ("c", .obj [("k", .str "v")])], .obj [("k", .str "v")]] :=
  ⟨rfl,
    (c1_search_returns_matches_in_traversal_order
      (.obj [("k", .str "v"), ("c", .obj [("k", .str "v")])]) "k" "v" rfl).trans (by rfl)⟩

/-- C1 counterexample: the claim's predicate is stringified equality,
but the code compares with JavaScript `==`; a mapping whose `k` field is
the boolean `true` stringifies to `"true"`, so the claim requires it in
the output of `search(T, "k", "true")`, yet the code returns no match
(`true == "true"` is false in JavaScript). -/
theorem c1_counterexample :
    searchSpecStringify (.obj [("a", .obj [("k", .bool true)])]) "k" "true" =
      [.obj [("k", .bool true)]] ∧
    findByFilter (.obj [("a", .obj [("k", .bool true)])]) "k" "true" = .ok [] :=
  ⟨rfl, rfl⟩

/-- C6: the claim says search on `null` (or on a tree with `null`
anywhere) contributes no matches without error, but the code throws a
`TypeError`: `typeof null === 'object'`, so `Object.keys(null)` is
reached.  Empty sequences, empty mappings and mappings lacking the key
do behave as claimed. -/
theorem c6_null_crash_empty_ok :
    findByFilter .null "k" "v" = .error typeErrorKeys ∧
    findByFilter (.obj [("a", .null)]) "k" "v" = .error typeErrorKeys ∧
    findByFilter (.arr [.null]) "k" "v" = .error typeErrorKeys ∧
    findByFilter (.arr []) "k" "v" = .ok [] ∧
    findByFilter (.obj []) "k" "v" = .ok [] ∧
    findByFilter (.obj [("x", .str "y")]) "k" "v" = .ok [] :=
  ⟨rfl, rfl, rfl, rfl, rfl, rfl⟩

/-- C7 (amended): the match test on a raw numeric or boolean field uses
JavaScript loose equality, not stringified equality: a numeric field
matches exactly the targets whose `ToNumber` value equals it, and a
boolean field matches exactly the targets whose `ToNumber` value is 1
(for `true`) or 0 (for `false`); so 123 matches `"123"` (and `"0123"`),
7 matches `"7.0"`, `"7e0"` and `"0x7"`, `true` matches `"1"` and
`"1.0"`, while `true` does not match `"true"`. -/
theorem c7_raw_scalar_match (n : Int) (b : Bool) (v : String) :
    findByFilter (.obj [("k", .num n)]) "k" v =
      .ok (if strToNumber? v = some n then [.obj [("k", .num n)]] else []) ∧
    findByFilter (.obj [("k", .bool b)]) "k" v =
      .ok (if strToNumber? v = some (if b then 1 else 0) then [.obj [("k", .bool b)]] else []) := by
  constructor
  · rw [findByFilter, findInEntries, show findByFilter (.num n) "k" v = .ok [] from rfl,
      findInEntries]
    by_cases hc : strToNumber? v = some n <;>
      simp [hasKey, lookupKey, jsEqStr, hc, bind, Except.bind, pure, Except.pure]
  · rw [findByFilter, findInEntries, show findByFilter (.bool b) "k" v = .ok [] from rfl,
      findInEntries]
    by_cases hc : strToNumber? v = some (if b then 1 else 0) <;>
      simp [hasKey, lookupKey, jsEqStr, hc, bind, Except.bind, pure, Except.pure]

/-- C7 counterexample: the claim says the match test succeeds exactly
when the raw value's string form equals the target; but a boolean
`true` field (string form `"true"`) does not match the target `"true"`,
while a numeric 7 field (string form `"7"`) does match the different
strings `"07"` and `"7.0"`. -/
theorem c7_counterexample :
    jsToString (.bool true) = "true" ∧
    findByFilter (.obj [("k", .bool true)]) "k" "true" = .ok [] ∧
    (jsToString (.num 7) == "07") = false ∧
    findByFilter (.obj [("k", .num 7)]) "k" "07" = .ok [.obj [("k", .num 7)]] ∧
    (jsToString (.num 7) == "7.0") = false ∧
    findByFilter (.obj [("k", .num 7)]) "k" "7.0" = .ok [.obj [("k", .num 7)]] :=
  ⟨rfl, rfl, rfl, rfl, rfl, rfl⟩

/-- C2: for every response body (null-free, so that extraction returns)
and every resource type, the extracted cursor is the `value` field of
the first fragment in document traversal order whose `cursorType` field
equals `"Bottom"`; and when no such fragment exists anywhere in the
body, the cursor carried by the returned `CursoredData` is the empty
string (the extraction itself yields `undefined`, turned into `''` by
`deserializeData`'s parameter default). -/
theorem c2_first_bottom_cursor_else_empty (body : JSValue) (t : EResourceType)
    (req : List JSValue) (nx : JSValue) (hnf : nullFree body = true)
    (h : extractData body t = .ok (req, nx)) :
    nx = optValue ((preorder body).filter (isMatch "cursorType" "Bottom")) ∧
    ((preorder body).filter (isMatch "cursorType" "Bottom") = [] →
      (deserializeData req nx).next = .str "") := by
  have hparts := extractData_parts body t req nx hnf h
  refine ⟨hparts.2, fun hempty => ?_⟩
  rw [hparts.2, hempty]
  rfl

/-- C2 witness: a concrete body whose only bottom-cursor fragment
carries value `"w1"`, fetched as a single-entity kind. -/
theorem c2_witness :
    JSValue.str "w1" =
      optValue ((preorder bodyC2W).filter (isMatch "cursorType" "Bottom")) ∧
    ((preorder bodyC2W).filter (isMatch "cursorType" "Bottom") = [] →
      (deserializeData [] (.str "w1")).next = .str "") :=
  c2_first_bottom_cursor_else_empty bodyC2W .TWEET_DETAILS [] (.str "w1") rfl rfl

/-- C9 (amended): cursor extraction is performed uniformly for every
resource kind, including the single-entity ones: for every kind the
extracted cursor is the `value` of the first bottom-cursor fragment in
traversal order whenever the body contains one, `undefined` (turned
into the empty string on the returned result) only when it contains
none.  Concretely: scenario A (single-post lookup, no cursor fragment)
yields one Post with identifier `"123"` and the empty cursor, while the
single-account lookups (`USER_DETAILS` and `USER_DETAILS_BY_ID`) on a
body containing a bottom cursor return that cursor's value. -/
theorem c9_single_entity_cursor_uniform :
    (∀ (t : EResourceType) (body : JSValue) (req : List JSValue) (nx : JSValue),
      nullFree body = true → extractData body t = .ok (req, nx) →
      nx = optValue ((preorder body).filter (isMatch "cursorType" "Bottom"))) ∧
    fetchModel true .TWEET_DETAILS scenarioA = (.ok ⟨[.post tweetA], .str ""⟩, 1) ∧
    entityId (.post tweetA) = .str "123" ∧
    fetchModel true .USER_DETAILS bodyC9U = (.ok ⟨[.account userFragC9], .str "uvw"⟩, 1) ∧
    fetchModel true .USER_DETAILS_BY_ID bodyC9U =
      (.ok ⟨[.account userFragC9], .str "uvw"⟩, 1) := by
  refine ⟨fun t body req nx hnf h => (extractData_parts body t req nx hnf h).2,
    by rfl, by rfl, by rfl, by rfl⟩

/-- C9 witness: the uniform-cursor conjunct applied to the concrete
scenario-A body (a single-post lookup) and to the concrete
single-account body containing a bottom cursor. -/
theorem c9_witness :
    JSValue.undefined =
      optValue ((preorder scenarioA).filter (isMatch "cursorType" "Bottom")) ∧
    JSValue.str "uvw" =
      optValue ((preorder bodyC9U).filter (isMatch "cursorType" "Bottom")) :=
  ⟨c9_single_entity_cursor_uniform.1 .TWEET_DETAILS scenarioA [tweetA] .undefined rfl rfl,
   c9_single_entity_cursor_uniform.1 .USER_DETAILS bodyC9U [userFragC9] (.str "uvw") rfl rfl⟩

/-- C9 counterexample: a single-post-lookup body that does contain a
bottom-cursor fragment; the claim says the returned cursor is empty,
but extraction returns `"xyz"` and the fetched `CursoredData` carries
`"xyz"`. -/
theorem c9_counterexample :
    extractData bodyC9 .TWEET_DETAILS = .ok ([tweetA], .str "xyz") ∧
    (fetchModel true .TWEET_DETAILS bodyC9).1 = .ok ⟨[.post tweetA], .str "xyz"⟩ ∧
    (deserializeData [tweetA] (.str "xyz")).next ≠ .str "" := by
  refine ⟨by rfl, by rfl, fun h => ?_⟩
  have h2 : "xyz" = "" := by injection h
  exact absurd h2 (by decide)

/-- C10: when extraction over a single-tweet-lookup body succeeds but
yields no fragment surviving deserialization, `TweetService.details`
resolves successfully with an absent value (the first element of the
empty entity list), not an error. -/
theorem c10_details_absent_on_empty (body : JSValue) (frags : List JSValue) (nx : JSValue)
    (h1 : extractData body .TWEET_DETAILS = .ok (frags, nx))
    (h2 : deserializeList frags = []) :
    detailsModel true body = (.ok none, 1) := by
  simp [detailsModel, fetchModel, requestModel, checkAuthorization, h1, deserializeData, h2]

/-- C10 witness: an empty-object body extracts no Tweet fragment and
`details` resolves with an absent value. -/
theorem c10_witness : detailsModel true (.obj []) = (.ok none, 1) :=
  c10_details_absent_on_empty (.obj []) [] .undefined rfl rfl

theorem extractRequired_timelineTweet (body : JSValue) (t : EResourceType)
    (h : timelineTweetKind t = true) :
    extractRequired body t = (do
      let tl ← findByFilter body "__typename" "TimelineTweet"
      projAll "tweet_results" tl) := by
  cases t <;> first | rfl | simp [timelineTweetKind] at h

theorem extractRequired_timelineUser (body : JSValue) (t : EResourceType)
    (h : timelineUserKind t = true) :
    extractRequired body t = (do
      let tl ← findByFilter body "__typename" "TimelineUser"
      projAll "user_results" tl) := by
  cases t <;> first | rfl | simp [timelineUserKind] at h

/-- C8: for every timeline or connection resource kind the extraction
applies the kind's projection before deserialization — the extracted
fragments are exactly the unwrapped inner entities
(`tweet_results.result` for the tweet-timeline kinds,
`user_results.result` for the user-connection kinds) of the
discriminator-matched container fragments, in match order; and
concretely, fetching scenario B (two `TimelineTweet` containers plus
one bottom cursor with value `"abc|"`) returns two Post entities in
encountered order with cursor `"abc|"` after one transport call. -/
theorem c8_projection_unwraps_in_match_order :
    (∀ (t : EResourceType) (body : JSValue) (req : List JSValue) (nx : JSValue),
      timelineTweetKind t = true → nullFree body = true →
      extractData body t = .ok (req, nx) →
      projAll "tweet_results"
          ((preorder body).filter (isMatch "__typename" "TimelineTweet")) = .ok req) ∧
    (∀ (t : EResourceType) (body : JSValue) (req : List JSValue) (nx : JSValue),
      timelineUserKind t = true → nullFree body = true →
      extractData body t = .ok (req, nx) →
      projAll "user_results"
          ((preorder body).filter (isMatch "__typename" "TimelineUser")) = .ok req) ∧
    fetchModel true .TWEET_SEARCH scenarioB =
      (.ok ⟨[.post tweetB1, .post tweetB2], .str "abc|"⟩, 1) := by
  refine ⟨fun t body req nx ht hnf h => ?_, fun t body req nx ht hnf h => ?_, by rfl⟩
  · have hreq := (extractData_parts body t req nx hnf h).1
    rw [extractRequired_timelineTweet body t ht,
      findByFilter_eq_filter body "__typename" "TimelineTweet" hnf] at hreq
    simpa [bind, Except.bind] using hreq
  · have hreq := (extractData_parts body t req nx hnf h).1
    rw [extractRequired_timelineUser body t ht,
      findByFilter_eq_filter body "__typename" "TimelineUser" hnf] at hreq
    simpa [bind, Except.bind] using hreq

/-- C8 witness: the tweet conjunct applied to the concrete scenario-B
body and the user conjunct applied to a concrete connection-list body,
each unwrapping the inner entities in match order. -/
theorem c8_witness :
    projAll "tweet_results"
        ((preorder scenarioB).filter (isMatch "__typename" "TimelineTweet")) =
      .ok [tweetB1, tweetB2] ∧
    projAll "user_results"
        ((preorder bodyC8U).filter (isMatch "__typename" "TimelineUser")) =
      .ok [userU1] :=
  ⟨c8_projection_unwraps_in_match_order.1 .TWEET_SEARCH scenarioB [tweetB1, tweetB2]
      (.str "abc|") rfl rfl rfl,
   c8_projection_unwraps_in_match_order.2.1 .USER_FOLLOWERS bodyC8U [userU1]
      .undefined rfl rfl rfl⟩

/-- C3 (amended): the guest-allowed set is exactly tweet-details,
user-details-by-username and the user timeline; for every other kind a
guest invocation of fetch or post fails with the authorization error
before any transport call (transport count zero), and for the
guest-allowed kinds the check is a no-op and the transport is invoked.
The user-details-by-id lookup, though a single-entity lookup, is not in
the set. -/
theorem c3_guest_gate (t : EResourceType) (body : JSValue) :
    (guestAllowedKind t = false →
      checkAuthorization t false = .error apiErrResourceNotAllowed ∧
      fetchModel false t body = (.error apiErrResourceNotAllowed, 0) ∧
      postModel false t body = (.error apiErrResourceNotAllowed, 0)) ∧
    (guestAllowedKind t = true →
      checkAuthorization t false = .ok () ∧
      (fetchModel false t body).2 = 1 ∧
      postModel false t body = (.ok true, 1)) ∧
    (guestAllowedKind t = true ↔
      t = .TWEET_DETAILS ∨ t = .USER_DETAILS ∨ t = .USER_TWEETS) := by
  cases t <;>
    refine ⟨fun hf => ?_, fun ht => ?_, by decide⟩ <;>
    first
      | exact absurd hf (by decide)
      | exact absurd ht (by decide)
      | exact ⟨rfl, rfl, rfl⟩
      | exact ⟨rfl, fetchModel_count false _ body rfl, rfl⟩

/-- C3 witness: a guest fetch of the search timeline fails with the
authorization error and zero transport calls, while the guest check on
the single-tweet lookup is a no-op. -/
theorem c3_witness :
    fetchModel false .TWEET_SEARCH (.obj []) = (.error apiErrResourceNotAllowed, 0) ∧
    checkAuthorization .TWEET_DETAILS false = .ok () :=
  ⟨((c3_guest_gate .TWEET_SEARCH (.obj [])).1 rfl).2.1,
   ((c3_guest_gate .TWEET_DETAILS (.obj [])).2.1 rfl).1⟩

/-- C3 counterexample: the claim identifies the guest-allowed set with
"the single-entity lookups and a user's primary timeline", but the
user-details-by-id kind is a single-entity lookup (`extractData`
handles it in its single-entity branch) and is nevertheless rejected
for guests before any transport call. -/
theorem c3_counterexample :
    singleEntityKind .USER_DETAILS_BY_ID = true ∧
    checkAuthorization .USER_DETAILS_BY_ID false = .error apiErrResourceNotAllowed ∧
    fetchModel false .USER_DETAILS_BY_ID (.obj []) = (.error apiErrResourceNotAllowed, 0) :=
  ⟨rfl, by rfl, by rfl⟩

/-- C4 (amended): deserialization keeps a fragment as a Post only if it
is truthy, carries the `Tweet` discriminator tag and a truthy (non-empty)
`rest_id`, keeps it as an Account only if it carries the `User` tag
together with a truthy `rest_id` and a *truthy* (nonzero, non-absent)
`id` — presence of the `id` field alone does not suffice — and drops
every other fragment silently, the output being exactly the qualifying
fragments' entities in their original relative order, the length
decreasing by exactly one per disqualified fragment. -/
theorem c4_deserialize_exactly_qualifying (frags : List JSValue) (nx : JSValue)
    (item : JSValue) :
    (deserializeData frags nx).list = frags.filterMap entityOf ∧
    (deserializeData frags nx).list.length +
      frags.countP (fun i => (entityOf i).isNone) = frags.length ∧
    (entityOf item = some (.post item) ↔ isValidTweet item = true) ∧
    (entityOf item = some (.account item) ↔
      isValidTweet item = false ∧ isValidUser item = true) ∧
    (entityOf item = none ↔ isValidTweet item = false ∧ isValidUser item = false) := by
  refine ⟨by simp [deserializeData, deserializeList_eq_filterMap],
    by simpa [deserializeData] using deserializeList_length frags, ?_, ?_, ?_⟩
  · rcases Bool.eq_false_or_eq_true (isValidTweet item) with ht | ht
    · simp [entityOf, ht]
    · rcases Bool.eq_false_or_eq_true (isValidUser item) with hu | hu <;>
        simp [entityOf, ht, hu]
  · rcases Bool.eq_false_or_eq_true (isValidTweet item) with ht | ht
    · simp [entityOf, ht]
    · rcases Bool.eq_false_or_eq_true (isValidUser item) with hu | hu <;>
        simp [entityOf, ht, hu]
  · exact entityOf_none_iff item

/-- C4 counterexample: a fragment tagged `User` carrying both the
stable identifier and the numeric account-id field (with value 0) —
the claim says it qualifies as an Account, but the code's truthiness
test drops it, so the output sequence is empty. -/
theorem c4_counterexample :
    hasKey userFragFields "rest_id" = true ∧
    hasKey userFragFields "id" = true ∧
    jsEqStr (lookupKey userFragFields "__typename") "User" = true ∧
    truthy (lookupKey userFragFields "rest_id") = true ∧
    (deserializeData [userFragIdZero] .undefined).list = [] :=
  ⟨rfl, rfl, rfl, rfl, rfl⟩

/-- C5 (amended): a malformed fragment reaching deserialization is
never escalated — it is dropped and the remaining fragments are
unaffected — and the extract-then-deserialize path completes without
raising for every null-free body whose matched timeline containers all
carry a readable wrapper object.  Both provisos are necessary: a
container missing the wrapper object aborts extraction (see the
counterexample), and a `null` anywhere in the body aborts the tree
search itself (see C6). -/
theorem c5_no_escalation (frags : List JSValue) (nx item : JSValue)
    (body : JSValue) (t : EResourceType) (hitem : entityOf item = none)
    (hnf : nullFree body = true) (hw : wrappersOk body t = true) :
    (deserializeData (item :: frags) nx).list = (deserializeData frags nx).list ∧
    ∃ p, extractData body t = .ok p := by
  have hv := (entityOf_none_iff item).mp hitem
  exact ⟨by simp [deserializeData, deserializeList, hv.1, hv.2],
    extractData_ok body t hnf hw⟩

/-- C5 witness: an `undefined` fragment (a projected container whose
wrapper was present but empty) is dropped without aborting, and the
body pairing such a container with a well-formed one extracts
successfully. -/
theorem c5_witness :
    (deserializeData (JSValue.undefined :: [tweetB1]) .undefined).list =
      (deserializeData [tweetB1] .undefined).list ∧
    ∃ p, extractData bodyC5W .TWEET_SEARCH = .ok p :=
  c5_no_escalation [tweetB1] .undefined .undefined bodyC5W .TWEET_SEARCH rfl rfl rfl

/-- C5 counterexample: a matched `TimelineTweet` container fragment
with no `tweet_results` wrapper at all; the claim says no malformed
fragment is ever escalated, but the projection inside extraction
throws a `TypeError`, aborting the whole page. -/
theorem c5_counterexample :
    findByFilter bodyC5 "__typename" "TimelineTweet" = .ok [brokenTimelineTweet] ∧
    extractData bodyC5 .TWEET_SEARCH = .error typeErrorRead :=
  ⟨by rfl, by rfl⟩

/-- C4 witness: the filterMap characterization evaluated on the
id-zero fragment. -/
theorem c4_witness :
    (deserializeData [userFragIdZero] .undefined).list = [userFragIdZero].filterMap entityOf :=
  (c4_deserialize_exactly_qualifying [userFragIdZero] .undefined userFragIdZero).1

/-- C7 witness: the numeric conjunct instantiated at 123 and target
`"123"`. -/
theorem c7_witness :
    findByFilter (.obj [("k", .num 123)]) "k" "123" =
      .ok (if strToNumber? "123" = some 123 then [.obj [("k", .num 123)]] else []) :=
  (c7_raw_scalar_match 123 true "123").1
